import Mathlib

/-!
Shallow embedding of the resume-intelligence assistant (AI_Hiring_Agent),
covering the components the verified claims are about:

* `GitHubParser._compute_stats` (src/agents/Github_Praser/github_agent.py):
  per-language byte aggregation, percentage breakdown, and push-activity level;
* `resume_loader` / `process_resume_from_file` and
  `extract_hyperlinks_from_pdf` (src/agents/Resume_Praser/improved_resume.py);
* the section-match selection loop of
  `ResumeProcessor.split_resume_into_sections` (same file);
* `extract_username_from_resume` and `create_persistent_vectorstore`
  (src/agents/core/agent.py);
* `analyze_linkedin_profile` and the scraping fallback chain
  (src/agents/Linkedin_Praser/linkedin_praser.py).

External services (PyMuPDF, PyPDFLoader, httpx fetches, the embedding model,
Python's `re` engine, `hashlib.md5`) are modelled as explicit environment
parameters; everything the repository's own code does with their results is
embedded directly.  Python dictionaries used with insertion order are modelled
as association lists; Python float arithmetic on day counts is modelled by
exact rationals (exact at every input the claims use).
-/

/-! ## GitHub stats (`GitHubParser._compute_stats`) -/

/-- Normalized repository record: the fields of `_normalize_repos` output that
`_compute_stats` consults for the verified claims.  `pushed_at` is the parsed
`datetime` value, modelled as seconds on the UTC timeline. -/
structure Repo where
  language : Option String := none
  size_kb : Option Nat := none
  pushed_at : Option Int := none
deriving DecidableEq

/-- `r.get("language") or "Unknown"`: `None` and the empty string are falsy. -/
def primary_language (r : Repo) : String :=
  match r.language with
  | none => "Unknown"
  | some s => if s = "" then "Unknown" else s

/-- `int(r.get("size_kb") or 0) * 1024`. -/
def repo_bytes (r : Repo) : Nat :=
  (match r.size_kb with
   | none => 0
   | some n => n) * 1024

/-- Python `dict` lookup with default 0 (`language_bytes.get(lang, 0)`),
on the association-list model of the dict. -/
def dictGet (m : List (String × Nat)) (k : String) : Nat :=
  match m with
  | [] => 0
  | p :: rest => if p.1 = k then p.2 else dictGet rest k

/-- Python `dict` assignment (`language_bytes[lang] = v`): overwrite in place
when the key exists, else append (insertion order). -/
def dictSet (m : List (String × Nat)) (k : String) (v : Nat) : List (String × Nat) :=
  match m with
  | [] => [(k, v)]
  | p :: rest => if p.1 = k then (k, v) :: rest else p :: dictSet rest k v

/-- The `language_bytes` dict built by `_compute_stats`:
`language_bytes[lang] = language_bytes.get(lang, 0) + int(size_kb) * 1024`
over the repos in order. -/
def language_bytes (repos : List Repo) : List (String × Nat) :=
  repos.foldl
    (fun m r => dictSet m (primary_language r) (dictGet m (primary_language r) + repo_bytes r))
    []

/-- `total_lang_bytes = sum(language_bytes.values()) or 1`: a zero sum (falsy)
is replaced by 1. -/
def total_lang_bytes (repos : List Repo) : Nat :=
  let s := ((language_bytes repos).map (fun p => p.2)).sum
  if s = 0 then 1 else s

/-- Floor of a rational, computed as in `q.num.fdiv q.den` (the denominator is
positive, so integer floor-division gives the floor). -/
def ratFloor (q : ℚ) : ℤ := q.num.fdiv (q.den : ℤ)

/-- Banker's rounding to an integer, as Python's `round` does on an exact
value: round to nearest, ties to the even integer. -/
def round_half_even (q : ℚ) : ℤ :=
  let f := ratFloor q
  let r := q - (f : ℚ)
  if r < (1 : ℚ)/2 then f
  else if (1 : ℚ)/2 < r then f + 1
  else if f % 2 = 0 then f else f + 1

/-- Python `round(x, 2)` modelled on exact rationals. -/
def pyRound2 (q : ℚ) : ℚ := (round_half_even (q * 100) : ℚ) / 100

/-- One entry of the `top_languages` list built by `_compute_stats`. -/
structure LangStat where
  language : String
  bytes : Nat
  percent : ℚ
  repo_count : Nat
deriving DecidableEq

/-- `sorted(language_bytes.items(), key=lambda kv: kv[1], reverse=True)`:
a stable sort descending by byte count (Python's stable sort is modelled by
insertion sort with the reflexive descending relation, which produces the same
list). -/
def sort_desc_by_bytes (l : List (String × Nat)) : List (String × Nat) :=
  List.insertionSort (fun a b => b.2 ≤ a.2) l

/-- The `top_languages` list of `_compute_stats`. -/
def top_languages (repos : List Repo) : List LangStat :=
  let total : ℚ := (total_lang_bytes repos : Nat)
  (sort_desc_by_bytes (language_bytes repos)).map (fun p =>
    { language := p.1
      bytes := p.2
      percent := pyRound2 ((p.2 : ℚ) * 100 / total)
      repo_count := (repos.filter (fun r => primary_language r = p.1)).length })

/-- `push_times = [r["pushed_at"] for r in repos if r.get("pushed_at")]`. -/
def push_times (repos : List Repo) : List Int :=
  repos.filterMap (fun r => r.pushed_at)

/-- `max(datetime.fromisoformat(...) for t in push_times)` when nonempty. -/
def latest_push (repos : List Repo) : Option Int :=
  (push_times repos).max?

/-- `delta_days = (datetime.now(timezone.utc) - latest).total_seconds() / 86400`,
as an exact rational, when there is any push timestamp. -/
def delta_days (repos : List Repo) (now : Int) : Option ℚ :=
  (latest_push repos).map (fun latest => ((now - latest : ℤ) : ℚ) / 86400)

/-- The threshold chain classifying `delta_days` in `_compute_stats`. -/
def classify_activity (d : ℚ) : String :=
  if d < 3 then "high"
  else if d < 14 then "medium"
  else if d < 45 then "low"
  else "none"

/-- `activity_level` as computed by `_compute_stats`: `"none"` when there is
no push timestamp, otherwise the threshold chain on `delta_days`. -/
def activity_level (repos : List Repo) (now : Int) : String :=
  match delta_days repos now with
  | none => "none"
  | some d => classify_activity d

/-- Total bytes attributed to `lang` by the repos in `rs`:
each repo's size in KB times 1024, attributed to its primary language. -/
def lang_total (rs : List Repo) (lang : String) : Nat :=
  ((rs.filter (fun r => primary_language r = lang)).map repo_bytes).sum

/-! ## Python string primitives

Lean core's `String.trim`/`toLower`/`endsWith` are implemented with
byte-position recursion; the Python string operations the repository uses are
modelled structurally on the character list instead. -/

/-- Python `str.strip()`: drop whitespace from both ends. -/
def pyStrip (s : String) : String :=
  String.mk (((s.toList.dropWhile Char.isWhitespace).reverse.dropWhile
    Char.isWhitespace).reverse)

/-- Python `str.lower()` (ASCII case folding suffices for the inputs here). -/
def pyLower (s : String) : String := String.mk (s.toList.map Char.toLower)

/-- Python `str.endswith(t)`. -/
def pyEndsWith (s t : String) : Bool := t.toList.isSuffixOf s.toList

/-- Python `"\n".join(parts)`. -/
def joinNL : List String → String
  | [] => ""
  | [s] => s
  | s :: rest => s ++ "\n" ++ joinNL rest

/-- `os.path.basename`: the component after the last path separator. -/
def pyBasename (p : String) : String :=
  String.mk ((p.toList.reverse.takeWhile (fun c => !(c == '/'))).reverse)

/-- The split position used by `os.path.splitext`: the last dot that has some
non-dot character before it (so leading dots of a basename never start an
extension); `none` when the name has no extension. -/
def splitext_pos (cs : List Char) : Option Nat :=
  ((List.range cs.length).filter
    (fun i => cs.getD i ' ' == '.' &&
      (List.range i).any (fun j => !(cs.getD j ' ' == '.')))).max?

/-- `os.path.splitext(name)[0]` for a basename. -/
def splitext_stem (name : String) : String :=
  match splitext_pos name.toList with
  | some i => String.mk (name.toList.take i)
  | none => name

/-- `os.path.splitext(name)[1]` for a basename (includes the dot). -/
def splitext_ext (name : String) : String :=
  match splitext_pos name.toList with
  | some i => String.mk (name.toList.drop i)
  | none => ""

/-! ## Documents and resume loading (`improved_resume.py`) -/

/-- A metadata value as stored in a langchain `Document` metadata dict by this
code base: strings, booleans, integers are "simple"; lists and nested dicts
are the complex values that `filter_complex_metadata` removes. -/
inductive MetaVal where
  | str (v : String)
  | boolean (v : Bool)
  | intv (v : Int)
  | strList (v : List String)
  | strMap (v : List (String × String))
deriving DecidableEq

/-- Simple-typed metadata values survive `filter_complex_metadata`. -/
def MetaVal.is_simple : MetaVal → Bool
  | .str _ => true
  | .boolean _ => true
  | .intv _ => true
  | _ => false

/-- langchain `Document`: page content plus a metadata dict. -/
structure Document where
  page_content : String
  metadata : List (String × MetaVal) := []
deriving DecidableEq

/-- Metadata dict lookup (`d.metadata.get(k)`). -/
def metaGet (m : List (String × MetaVal)) (k : String) : Option MetaVal :=
  match m with
  | [] => none
  | p :: rest => if p.1 = k then some p.2 else metaGet rest k

/-- The exceptions `resume_loader` can raise: `FileNotFoundError` for missing
paths, `ImportError` when python-docx is absent, and the `ValueError` raised
for an unsupported extension. -/
inductive LoadError where
  | fileNotFound (msg : String)
  | importError (msg : String)
  | valueError (msg : String)
deriving DecidableEq

/-- `str(e)` of a raised loader exception. -/
def LoadError.message : LoadError → String
  | .fileNotFound m => m
  | .importError m => m
  | .valueError m => m

/-- Environment of `resume_loader`: the filesystem and the external document
readers (PyPDFLoader, `open().read()`, python-docx). -/
structure LoaderEnv where
  file_exists : String → Bool
  pdf_docs : String → List Document
  read_text : String → String
  docx_available : Bool
  docx_paragraphs : String → List String

/-- `resume_loader` (improved_resume.py): existence check first, then dispatch
on the lowercased extension; unsupported extensions raise `ValueError`.  The
surrounding `try/except` logs and re-raises, so error propagation is the
identity. -/
def resume_loader (env : LoaderEnv) (file_path : String) : Except LoadError (List Document) :=
  if env.file_exists file_path = false then
    Except.error (LoadError.fileNotFound ("Resume file not found: " ++ file_path))
  else
    let ext := pyLower (splitext_ext (pyBasename file_path))
    if ext = ".pdf" then
      Except.ok (env.pdf_docs file_path)
    else if ext = ".txt" ∨ ext = ".md" then
      Except.ok [{ page_content := env.read_text file_path,
                   metadata := [("source", MetaVal.str file_path)] }]
    else if ext = ".docx" then
      if env.docx_available then
        Except.ok [{ page_content := joinNL (env.docx_paragraphs file_path),
                     metadata := [("source", MetaVal.str file_path)] }]
      else
        Except.error (LoadError.importError
          "python-docx package required for .docx files. Install with: pip install python-docx")
    else
      Except.error (LoadError.valueError
        ("Unsupported file format: " ++ ext ++ ". Supported: .pdf, .txt, .md, .docx"))

/-- Result dict of `process_resume_from_file`.  The success-only keys
(`sections`, `hyperlinks`, `file_path`) are not consulted by any claim and are
omitted; `error` is present exactly when the `except` branch ran. -/
structure ProcessResult where
  documents : List Document
  vectorstore : Option Unit
  contact_info : List (String × MetaVal)
  error : Option String := none
deriving DecidableEq

/-- Environment of `process_resume_from_file` beyond the loader: the section
segmentation (`ResumeProcessor.split_resume_into_sections`, whose regex-driven
internals are settled separately at their own level) and the embedding service
(`create_vector_embeddings`, which returns `None` on failure). -/
structure ProcessEnv extends LoaderEnv where
  split_sections : String → String → List Document
  embed_outcome : List Document → Option Unit

/-- `process_resume_from_file`: load, join page contents, and return an empty
result (documents `[]`, vectorstore `None`, no error key) when the stripped
full text is blank; any raised exception is caught and stored as `error`. -/
def process_resume_from_file (env : ProcessEnv) (file_path : String) : ProcessResult :=
  match resume_loader env.toLoaderEnv file_path with
  | Except.error e =>
      { documents := [], vectorstore := none, contact_info := [], error := some e.message }
  | Except.ok docs =>
      let full_text := joinNL (docs.map (fun d => d.page_content))
      if pyStrip full_text = "" then
        { documents := [], vectorstore := none, contact_info := [], error := none }
      else
        let split_docs := env.split_sections full_text file_path
        let contact_doc := split_docs.find?
          (fun d => metaGet d.metadata "section" == some (MetaVal.str "contact_info"))
        { documents := split_docs
          vectorstore := env.embed_outcome split_docs
          contact_info := (match contact_doc with
                           | some d => d.metadata
                           | none => [])
          error := none }

/-! ## Hyperlink extraction (`extract_hyperlinks_from_pdf`) -/

/-- One extracted hyperlink record (url, 1-based page, description). -/
structure LinkRec where
  url : String
  page : Nat
  description : String
deriving DecidableEq

/-- The six-category link map; `default_result` maps every category to `[]`. -/
structure HyperlinkMap where
  github : List LinkRec := []
  linkedin : List LinkRec := []
  research_publications : List LinkRec := []
  certifications : List LinkRec := []
  social_media : List LinkRec := []
  other : List LinkRec := []
deriving DecidableEq

/-- The `default_result` dict of `extract_hyperlinks_from_pdf`. -/
def default_result : HyperlinkMap := {}

/-- Environment of `extract_hyperlinks_from_pdf`: whether PyMuPDF imported
(`FITZ_AVAILABLE`), the filesystem, and the outcome of the `try` block that
walks the PDF's link annotations (`none` models a raised exception, which the
`except` branch converts to `default_result`). -/
structure PdfEnv where
  fitz_available : Bool
  file_exists : String → Bool
  try_extract : String → Option HyperlinkMap

/-- `extract_hyperlinks_from_pdf`: guard chain (PyMuPDF available, `.pdf`
extension, file exists) each returning `default_result`, then the `try`
block with `except` returning `default_result`. -/
def extract_hyperlinks_from_pdf (env : PdfEnv) (file_path : String) : HyperlinkMap :=
  if env.fitz_available = false then default_result
  else if pyEndsWith (pyLower file_path) ".pdf" = false then default_result
  else if env.file_exists file_path = false then default_result
  else
    match env.try_extract file_path with
    | some links => links
    | none => default_result

/-! ## Section-match selection (`split_resume_into_sections`) -/

/-- The inner loop of `ResumeProcessor.split_resume_into_sections` for one
section pattern, applied to the captured texts `re.findall` returned in order:
`section_text = match.strip()`; a match is emitted when
`section_text and len(section_text) > 20`, and the `break` stops after the
first emitted match. -/
def select_section_match (match_list : List String) : Option String :=
  match match_list with
  | [] => none
  | m :: rest =>
    let section_text := pyStrip m
    if section_text ≠ "" ∧ section_text.length > 20 then some section_text
    else select_section_match rest

/-- The per-section-name emission over the pattern list (every section name in
the source has exactly one pattern, so at most one text is emitted per name):
each pattern contributes the first match passing the length threshold. -/
def emitted_section_texts (matches_per_pattern : List (List String)) : List String :=
  matches_per_pattern.foldl
    (fun acc ms =>
      match select_section_match ms with
      | some s => acc ++ [s]
      | none => acc) []

/-! ## Username derivation and persistent vector store (`core/agent.py`) -/

/-- Python regex `\w` on ASCII: letters, digits, underscore. -/
def is_word_char (c : Char) : Bool := c.isAlphanum || c == '_'

/-- One character under `re.sub(r'[^\w\-_]', '_', ...)`: kept when it is a
word character or a hyphen, replaced by `_` otherwise. -/
def sanitize_char (c : Char) : Char := if is_word_char c || c == '-' then c else '_'

/-- `re.sub(r'[^\w\-_]', '_', s)`: the pattern is a single-character class, so
the substitution is a per-character map. -/
def py_sub_nonword (s : String) : String := String.mk (s.toList.map sanitize_char)

/-- Python slicing `s[:n]`, by characters. -/
def pySlice (s : String) (n : Nat) : String := String.mk (s.toList.take n)

/-- `extract_username_from_resume` (core/agent.py).  `md5hex` stands for
`hashlib.md5(...).hexdigest()`; `stat` models `os.stat(resume_file)` as
`some (st_mtime, st_size)` when the file exists and `none` when it raises (the
numeric rendering of `st_mtime` enters only the hashed string, so it is kept
as a natural number); `now_str` is the `datetime.now().strftime(...)` fallback
used by the `except` branch, which is reached exactly when `os.stat` raised
inside the generic-username branch. -/
def extract_username_from_resume (md5hex : String → String) (now_str : String)
    (resume_file : String) (stat : Option (Nat × Nat)) : String :=
  let base_name := splitext_stem (pyBasename resume_file)
  let username := py_sub_nonword (pyLower base_name)
  if username = "resume" ∨ username = "cv" ∨ username = "document" ∨ username.length < 3 then
    match stat with
    | some (mtime, size) =>
        "user_" ++
          pySlice (md5hex (resume_file ++ "_" ++ toString mtime ++ "_" ++ toString size)) 8
    | none => "user_" ++ now_str
  else username

/-- langchain `filter_complex_metadata`: keeps every document, dropping the
metadata entries whose values are not simple-typed. -/
def filter_complex_metadata (docs : List Document) : List Document :=
  docs.map (fun d => { d with metadata := d.metadata.filter (fun kv => kv.2.is_simple) })

/-- `create_persistent_vectorstore` (core/agent.py), as a transition on the
persisted Chroma state (a map from persist directory to stored documents):
empty input returns `None` without touching the state; a zero collection
count adds the filtered documents; a nonzero count reuses the existing
collection unchanged.  (The `except` branch only fires on external Chroma
failures, modelled as the non-throwing path.)  Returns the new state and the
returned store's contents (`none` when the function returned `None`). -/
def create_persistent_vectorstore (stores : String → List Document)
    (documents : List Document) (username : String) :
    (String → List Document) × Option (List Document) :=
  if documents.isEmpty then (stores, none)
  else
    let persist_directory := "./resume_" ++ username
    let collection_count := (stores persist_directory).length
    if collection_count = 0 then
      let updated := fun d =>
        if d = persist_directory then stores d ++ filter_complex_metadata documents
        else stores d
      (updated, some (updated persist_directory))
    else (stores, some (stores persist_directory))

/-! ## LinkedIn analysis (`linkedin_praser.py`) -/

/-- The `data` payload of a BrightData scrape response. -/
structure BrightData where
  name : Option String := none
  headline : Option String := none
  location : Option String := none
  connections : Option String := none
  about : Option String := none
  experience : List String := []
  education : List String := []
  skills : List String := []
deriving DecidableEq

/-- A scraping result dict: the union of the keys the scraping functions put
in their result dicts (`error` present exactly on failure). -/
structure ScrapeResult where
  url : Option String := none
  username : Option String := none
  error : Option String := none
  message : Option String := none
  status : Option String := none
  method : Option String := none
  data : Option BrightData := none
  name : Option String := none
  headline : Option String := none
  location : Option String := none
  connections : Option String := none
  about : Option String := none
  experience : List String := []
  education : List String := []
  skills : List String := []
  description : Option String := none
  extracted_at : Option String := none
deriving DecidableEq

/-- Python truthiness of an optional string (`if linkedin_url:`): `None` and
the empty string are falsy. -/
def truthy : Option String → Bool
  | none => false
  | some s => !(s == "")

/-- Environment of the LinkedIn analysis: the `BRIGHTDATA_API_TOKEN` setting,
the outcomes of the two network scrapers (both catch their own exceptions and
always return a dict, with `error` set on failure), the regex-based username
extraction, the LLM summary call (which catches its own failure and returns a
placeholder string), the LinkedIn links found in a resume file, and the
timestamp. -/
structure LinkedInEnv where
  brightdata_token : Option String
  brightdata_result : String → ScrapeResult
  basic_result : String → ScrapeResult
  username_of : String → Option String
  summary_result : ScrapeResult → String
  resume_links : String → List String
  now_iso : String

/-- `LinkedInProfileScraper._process_brightdata_result`: normalize the raw
BrightData response (its body cannot raise, so the `except` branch is dead). -/
def process_brightdata_result (username_of : String → Option String)
    (r : ScrapeResult) : ScrapeResult :=
  let d := r.data.getD {}
  { url := r.url
    username := username_of (r.url.getD "")
    name := some (d.name.getD "N/A")
    headline := some (d.headline.getD "N/A")
    location := some (d.location.getD "N/A")
    connections := some (d.connections.getD "N/A")
    about := some (d.about.getD "N/A")
    experience := d.experience
    education := d.education
    skills := d.skills
    extracted_at := r.extracted_at
    status := some "success_brightdata"
    method := some "brightdata_api" }

/-- `LinkedInProfileScraper.scrape_linkedin_profile_enhanced`: BrightData when
a token is configured and its result carries no `error`, else the basic
scraper's result when error-free, else the access-denied dict. -/
def scrape_linkedin_profile_enhanced (env : LinkedInEnv) (linkedin_url : String) :
    ScrapeResult :=
  let bright : Option ScrapeResult :=
    if truthy env.brightdata_token then
      let r := env.brightdata_result linkedin_url
      if r.error = none then some (process_brightdata_result env.username_of r) else none
    else none
  match bright with
  | some processed => processed
  | none =>
    let basic := env.basic_result linkedin_url
    if basic.error = none then basic
    else
      { error := some "LinkedIn access denied"
        message := some "Unable to parse LinkedIn profile due to access restrictions"
        url := some linkedin_url
        status := some "access_denied" }

/-- The result dict of `analyze_linkedin_profile`: union of the keys of its
return paths (`error` only on the failure paths, `linkedin_found` only where
the source sets that key). -/
structure AnalyzeResult where
  error : Option String := none
  message : Option String := none
  url : Option String := none
  linkedin_url : Option String := none
  additional_links : List String := []
  profile_data : Option ScrapeResult := none
  professional_summary : Option String := none
  summary : Option String := none
  extraction_method : Option String := none
  analysis_timestamp : Option String := none
  linkedin_found : Option Bool := none
  resume_processed : Option Bool := none
deriving DecidableEq

/-- The tail of `analyze_linkedin_profile` once `linkedin_links` is known:
scrape the first link; on a scrape `error` or a `partially_extracted` status
return the access-denied dict, else build the success result
(`extraction_method` keys off the truthiness of `resume_file_path`, not off
the branch that produced the links). -/
def analyze_links (env : LinkedInEnv) (from_resume : Bool)
    (linkedin_links : List String) : AnalyzeResult :=
  let primary_linkedin := linkedin_links.headD ""
  let profile_data := scrape_linkedin_profile_enhanced env primary_linkedin
  if profile_data.error ≠ none ∨ profile_data.status = some "partially_extracted" then
    { error := some "LinkedIn access denied"
      message := some "Cannot parse LinkedIn profile due to access restrictions"
      url := some primary_linkedin
      profile_data := none
      summary := some "LinkedIn profile analysis unavailable due to access restrictions." }
  else
    { linkedin_url := some primary_linkedin
      additional_links := linkedin_links.tail
      profile_data := some profile_data
      professional_summary := some (env.summary_result profile_data)
      extraction_method := some (if from_resume then "resume" else "direct_url")
      analysis_timestamp := some env.now_iso
      linkedin_found := some true }

/-- `analyze_linkedin_profile` (linkedin_praser.py). -/
def analyze_linkedin_profile (env : LinkedInEnv) (linkedin_url : Option String)
    (resume_file_path : Option String) : AnalyzeResult :=
  if truthy linkedin_url then
    analyze_links env (truthy resume_file_path) [linkedin_url.getD ""]
  else if truthy resume_file_path then
    let links := env.resume_links (resume_file_path.getD "")
    if links.isEmpty then
      { error := some "No LinkedIn profile found in resume"
        message := some "LinkedIn link not provided and none found in resume"
        resume_processed := some true
        linkedin_found := some false }
    else analyze_links env true links
  else
    { error := some "No LinkedIn URL or resume file provided"
      message := some "Please provide either a LinkedIn URL or a resume file path"
      linkedin_found := some false }

/-- A LinkedIn URL "cannot be reached" in the given environment: the BrightData
path is unavailable (no token configured) or fails (its result carries an
`error`), and the direct fetch fails (its result carries an `error`). -/
def linkedin_unreachable (env : LinkedInEnv) (url : String) : Prop :=
  (truthy env.brightdata_token = false ∨ (env.brightdata_result url).error ≠ none) ∧
  (env.basic_result url).error ≠ none


/-- Concrete environment for the loader claims: `cv.txt` exists and reads as
whitespace-only text, `notes.rtf` exists with an unsupported extension, and
every other path is missing. -/
def c1_env : ProcessEnv :=
  { file_exists := fun p => p == "cv.txt" || p == "notes.rtf"
    pdf_docs := fun _ => []
    read_text := fun _ => "   \n  "
    docx_available := false
    docx_paragraphs := fun _ => []
    split_sections := fun _ _ => []
    embed_outcome := fun _ => none }

/-- The characters an `md5(...).hexdigest()` string is made of. -/
def hex_chars : List Char := "0123456789abcdef".toList

/-- Concrete environment for the LinkedIn claim: no BrightData token and a
direct fetch rejected by LinkedIn. -/
def c6_env : LinkedInEnv :=
  { brightdata_token := none
    brightdata_result := fun _ => {}
    basic_result := fun _ => { error := some "Access forbidden by LinkedIn" }
    username_of := fun _ => none
    summary_result := fun _ => ""
    resume_links := fun _ => []
    now_iso := "2024-01-01T00:00:00" }

/-! # Theorems -/

/-! ### Association-list dict lemmas -/

theorem dictGet_dictSet (m : List (String × Nat)) (k : String) (v : Nat) (k' : String) :
    dictGet (dictSet m k v) k' = if k = k' then v else dictGet m k' := by
  induction m with
  | nil => by_cases h : k = k' <;> simp [dictSet, dictGet, h]
  | cons p rest ih =>
    by_cases hp : p.1 = k <;> by_cases h : k = k' <;>
      simp_all [dictSet, dictGet]

theorem language_bytes_foldl (rs : List Repo) (m : List (String × Nat)) (lang : String) :
    dictGet
      (rs.foldl
        (fun m r =>
          dictSet m (primary_language r) (dictGet m (primary_language r) + repo_bytes r)) m)
      lang
      = dictGet m lang + lang_total rs lang := by
  induction rs generalizing m with
  | nil => simp [lang_total]
  | cons r rs ih =>
    rw [List.foldl_cons, ih, dictGet_dictSet]
    by_cases h : primary_language r = lang
    · have ht : lang_total (r :: rs) lang = repo_bytes r + lang_total rs lang := by
        simp [lang_total, List.filter_cons, h]
      rw [if_pos h, h, ht]
      omega
    · have ht : lang_total (r :: rs) lang = lang_total rs lang := by
        simp [lang_total, List.filter_cons, h]
      rw [if_neg h, ht]

/-! ## Claim theorems: GitHub stats -/

/-- C3: for every repository list with at least one pushed-at timestamp, the
activity level computed from days-since-last-push `d` satisfies: `d < 3` gives
"high", `3 ≤ d < 14` gives "medium", `14 ≤ d < 45` gives "low", `d ≥ 45` gives
"none"; with no pushed-at timestamps the level is "none". -/
theorem activity_level_thresholds (repos : List Repo) (now : Int) :
    (∀ d : ℚ, delta_days repos now = some d →
      (d < 3 → activity_level repos now = "high") ∧
      (3 ≤ d → d < 14 → activity_level repos now = "medium") ∧
      (14 ≤ d → d < 45 → activity_level repos now = "low") ∧
      (45 ≤ d → activity_level repos now = "none")) ∧
    (push_times repos = [] → activity_level repos now = "none") := by
  constructor
  · intro d hd
    have ha : activity_level repos now = classify_activity d := by
      simp [activity_level, hd]
    refine ⟨fun h => ?_, fun h3 h14 => ?_, fun h14 h45 => ?_, fun h45 => ?_⟩
    · rw [ha, classify_activity, if_pos h]
    · rw [ha, classify_activity, if_neg (not_lt.mpr h3), if_pos h14]
    · rw [ha, classify_activity, if_neg (not_lt.mpr (le_trans (by norm_num) h14)),
        if_neg (not_lt.mpr h14), if_pos h45]
    · rw [ha, classify_activity, if_neg (not_lt.mpr (le_trans (by norm_num) h45)),
        if_neg (not_lt.mpr (le_trans (by norm_num) h45)), if_neg (not_lt.mpr h45)]
  · intro h
    simp [activity_level, delta_days, latest_push, h]

unseal Rat.mul Rat.inv Rat.add Rat.sub in
/-- Witness for C3: a single repo pushed one day before "now" yields
`delta_days = 1` and activity level "high". -/
theorem activity_level_thresholds_witness :
    activity_level [{ pushed_at := some 0 }] 86400 = "high" :=
  ((activity_level_thresholds [{ pushed_at := some 0 }] 86400).1 1 (by decide)).1
    (by decide)

unseal Rat.mul Rat.inv Rat.add Rat.sub in
/-- C2 counterexample: a repository list whose latest push is exactly 20 days
before "now" gets activity level "low", not "medium" as claimed (the code's
"medium" window ends at 14 days). -/
theorem activity_level_20d_counterexample :
    activity_level [{ pushed_at := some (86400 * 40) }] (86400 * 60) = "low" ∧
    activity_level [{ pushed_at := some (86400 * 40) }] (86400 * 60) ≠ "medium" := by
  decide

/-- C2 amended: with the latest pushed-at timestamp exactly 2 days before now
the activity level is "high"; 20 days before now gives "low" (not "medium");
50 days before now gives "none". -/
theorem activity_level_at_2_20_50_days (repos : List Repo) (now : Int) :
    (latest_push repos = some (now - 2 * 86400) → activity_level repos now = "high") ∧
    (latest_push repos = some (now - 20 * 86400) → activity_level repos now = "low") ∧
    (latest_push repos = some (now - 50 * 86400) → activity_level repos now = "none") := by
  refine ⟨fun h => ?_, fun h => ?_, fun h => ?_⟩
  · have ha : activity_level repos now =
        classify_activity (((now - (now - 2 * 86400) : ℤ) : ℚ) / 86400) := by
      simp [activity_level, delta_days, h]
    have e : ((now - (now - 2 * 86400) : ℤ) : ℚ) = 2 * 86400 := by push_cast; ring
    rw [ha, e]; norm_num [classify_activity]
  · have ha : activity_level repos now =
        classify_activity (((now - (now - 20 * 86400) : ℤ) : ℚ) / 86400) := by
      simp [activity_level, delta_days, h]
    have e : ((now - (now - 20 * 86400) : ℤ) : ℚ) = 20 * 86400 := by push_cast; ring
    rw [ha, e]; norm_num [classify_activity]
  · have ha : activity_level repos now =
        classify_activity (((now - (now - 50 * 86400) : ℤ) : ℚ) / 86400) := by
      simp [activity_level, delta_days, h]
    have e : ((now - (now - 50 * 86400) : ℤ) : ℚ) = 50 * 86400 := by push_cast; ring
    rw [ha, e]; norm_num [classify_activity]

/-- Witness for the amended C2: concrete repos pushed 2, 20 and 50 days before
a concrete "now". -/
theorem activity_level_at_2_20_50_days_witness :
    activity_level [{ pushed_at := some (86400 * 58) }] (86400 * 60) = "high" ∧
    activity_level [{ pushed_at := some (86400 * 40) }] (86400 * 60) = "low" ∧
    activity_level [{ pushed_at := some (86400 * 10) }] (86400 * 60) = "none" :=
  ⟨(activity_level_at_2_20_50_days [{ pushed_at := some (86400 * 58) }] (86400 * 60)).1
      (by decide),
   (activity_level_at_2_20_50_days [{ pushed_at := some (86400 * 40) }] (86400 * 60)).2.1
      (by decide),
   (activity_level_at_2_20_50_days [{ pushed_at := some (86400 * 10) }] (86400 * 60)).2.2
      (by decide)⟩

unseal Rat.mul Rat.inv Rat.add Rat.sub in
/-- C4: per-language byte aggregation attributes each repository's size in KB
times 1024 to its primary language and sums over repositories; two repos of
size 100 KB and 300 KB both tagged Python yield `{"Python": 409600}` with a
100% share; and the `top_languages` breakdown is sorted descending by bytes. -/
theorem language_bytes_aggregation :
    (∀ (repos : List Repo) (lang : String),
      dictGet (language_bytes repos) lang = lang_total repos lang) ∧
    (language_bytes
        [{ language := some "Python", size_kb := some 100 },
         { language := some "Python", size_kb := some 300 }] = [("Python", 409600)] ∧
     top_languages
        [{ language := some "Python", size_kb := some 100 },
         { language := some "Python", size_kb := some 300 }] =
       [{ language := "Python", bytes := 409600, percent := 100, repo_count := 2 }]) ∧
    (∀ repos : List Repo,
      List.Pairwise (fun a b : LangStat => b.bytes ≤ a.bytes) (top_languages repos)) := by
  refine ⟨fun repos lang => ?_, by decide, fun repos => ?_⟩
  · have h := language_bytes_foldl repos [] lang
    simpa [language_bytes, dictGet] using h
  · haveI : IsTotal (String × ℕ) (fun a b => b.2 ≤ a.2) := ⟨fun a b => le_total b.2 a.2⟩
    haveI : IsTrans (String × ℕ) (fun a b => b.2 ≤ a.2) :=
      ⟨fun _ _ _ h1 h2 => le_trans h2 h1⟩
    have hs := List.sorted_insertionSort (fun a b : String × ℕ => b.2 ≤ a.2)
      (language_bytes repos)
    simp only [top_languages, sort_desc_by_bytes]
    exact List.pairwise_map.mpr (hs.imp (fun h => h))

/-- C10: the denominator used for language percentages is always at least 1
(`sum(...) or 1`), including for an empty repository list or all-zero sizes,
so the percentage computation in `top_languages` never divides by zero. -/
theorem total_lang_bytes_pos : ∀ repos : List Repo, 1 ≤ total_lang_bytes repos := by
  intro repos
  rw [total_lang_bytes]
  by_cases h : ((language_bytes repos).map (fun p => p.2)).sum = 0 <;> simp [h]
  omega

/-! ## Claim theorems: loader, hyperlinks, sections -/

/-- C1 amended: the loader raises `FileNotFoundError` for a missing path
(checked first); for an existing path with an unrecognized extension it raises
`ValueError` ("Unsupported file format: ..."); blank extracted text is NOT a
failure: `process_resume_from_file` returns an empty result with no error. -/
theorem resume_loader_error_taxonomy (env : ProcessEnv) (file_path : String) :
    (env.file_exists file_path = false →
      resume_loader env.toLoaderEnv file_path =
        Except.error (LoadError.fileNotFound ("Resume file not found: " ++ file_path))) ∧
    (env.file_exists file_path = true →
      pyLower (splitext_ext (pyBasename file_path)) ∉ [".pdf", ".txt", ".md", ".docx"] →
      resume_loader env.toLoaderEnv file_path =
        Except.error (LoadError.valueError
          ("Unsupported file format: " ++ pyLower (splitext_ext (pyBasename file_path)) ++
           ". Supported: .pdf, .txt, .md, .docx"))) ∧
    (∀ docs : List Document,
      resume_loader env.toLoaderEnv file_path = Except.ok docs →
      pyStrip (joinNL (docs.map (fun d => d.page_content))) = "" →
      process_resume_from_file env file_path =
        { documents := [], vectorstore := none, contact_info := [], error := none }) := by
  refine ⟨fun h => ?_, fun h hext => ?_, fun docs hok hblank => ?_⟩
  · simp [resume_loader, h]
  · simp only [List.mem_cons, List.not_mem_nil, or_false, not_or] at hext
    obtain ⟨h1, h2, h3, h4⟩ := hext
    simp [resume_loader, h, h1, h2, h3, h4]
  · simp [process_resume_from_file, hok, hblank]

/-- Witness for C1: the three branches at concrete paths of `c1_env`. -/
theorem resume_loader_error_taxonomy_witness :
    resume_loader c1_env.toLoaderEnv "missing.txt" =
      Except.error (LoadError.fileNotFound ("Resume file not found: " ++ "missing.txt")) ∧
    resume_loader c1_env.toLoaderEnv "notes.rtf" =
      Except.error (LoadError.valueError
        ("Unsupported file format: " ++ pyLower (splitext_ext (pyBasename "notes.rtf")) ++
         ". Supported: .pdf, .txt, .md, .docx")) ∧
    process_resume_from_file c1_env "cv.txt" =
      { documents := [], vectorstore := none, contact_info := [], error := none } :=
  ⟨(resume_loader_error_taxonomy c1_env "missing.txt").1 (by decide),
   (resume_loader_error_taxonomy c1_env "notes.rtf").2.1 (by decide) (by decide),
   (resume_loader_error_taxonomy c1_env "cv.txt").2.2
     [{ page_content := "   \n  ", metadata := [("source", MetaVal.str "cv.txt")] }]
     (by rfl) (by decide)⟩

/-- C1 counterexample: for a whitespace-only `.txt` resume the loader succeeds
and `process_resume_from_file` returns a result with NO error key (and no
documents) — there is no `EmptyContentError` failure for blank content. -/
theorem process_blank_no_failure_counterexample :
    resume_loader c1_env.toLoaderEnv "cv.txt" =
      Except.ok [{ page_content := "   \n  ", metadata := [("source", MetaVal.str "cv.txt")] }] ∧
    (process_resume_from_file c1_env "cv.txt").error = none ∧
    (process_resume_from_file c1_env "cv.txt").documents = [] :=
  ⟨rfl, rfl, rfl⟩

/-- C9: when PyMuPDF is unavailable, hyperlink extraction returns
`default_result` — the mapping sending each of the six categories to the empty
list — and, being a total function of its environment, raises nothing. -/
theorem extract_hyperlinks_no_fitz (env : PdfEnv) (file_path : String) :
    env.fitz_available = false →
    extract_hyperlinks_from_pdf env file_path = default_result ∧
    default_result =
      { github := [], linkedin := [], research_publications := [],
        certifications := [], social_media := [], other := [] } := by
  intro h
  exact ⟨by simp [extract_hyperlinks_from_pdf, h], rfl⟩

/-- Witness for C9 at a concrete environment without PyMuPDF. -/
theorem extract_hyperlinks_no_fitz_witness :
    extract_hyperlinks_from_pdf
      { fitz_available := false, file_exists := fun _ => true, try_extract := fun _ => none }
      "resume.pdf" = default_result :=
  ((extract_hyperlinks_no_fitz
    { fitz_available := false, file_exists := fun _ => true, try_extract := fun _ => none }
    "resume.pdf") rfl).1

/-- C7 counterexample: with captured matches `["ok", "abcdefghijklmnopqrstuvwxyz"]`
the emitted section text is the SECOND match (the first is under the
21-character threshold), so it is not the first pattern match. -/
theorem select_section_match_counterexample :
    select_section_match ["ok", "abcdefghijklmnopqrstuvwxyz"] =
      some "abcdefghijklmnopqrstuvwxyz" ∧
    pyStrip "ok" = "ok" ∧ ("abcdefghijklmnopqrstuvwxyz" : String) ≠ "ok" :=
  ⟨rfl, rfl, by decide⟩

/-- C7 amended: per section pattern, the emitted section text is the FIRST
match whose stripped text exceeds the 20-character threshold (so at most one
section is emitted per section name, but earlier too-short matches are
skipped), and any emitted section text exceeds the threshold. -/
theorem select_section_match_spec :
    (∀ ms : List String, select_section_match ms =
      (ms.map pyStrip).find? (fun s => decide (s.length > 20))) ∧
    (∀ (ms : List String) (s : String), select_section_match ms = some s →
      s.length > 20 ∧ s ∈ ms.map pyStrip) := by
  have h1 : ∀ ms : List String, select_section_match ms =
      (ms.map pyStrip).find? (fun s => decide (s.length > 20)) := by
    intro ms
    induction ms with
    | nil => rfl
    | cons m rest ih =>
      by_cases h : (pyStrip m).length > 20
      · have hne : pyStrip m ≠ "" := by
          intro he
          rw [he] at h
          simp at h
        rw [List.map_cons, List.find?_cons_of_pos _ (by simpa using h)]
        simp only [select_section_match]
        rw [if_pos ⟨hne, h⟩]
      · rw [List.map_cons, List.find?_cons_of_neg _ (by simpa using h)]
        simp only [select_section_match]
        rw [if_neg (fun hc => h hc.2), ih]
  refine ⟨h1, fun ms s h => ?_⟩
  rw [h1] at h
  exact ⟨by simpa using List.find?_some h, List.mem_of_find?_eq_some h⟩

/-- Witness for the amended C7: a single sufficiently long match is emitted
(stripped) and satisfies the threshold. -/
theorem select_section_match_spec_witness :
    ("abcdefghijklmnopqrstuvwxyz" : String).length > 20 ∧
    "abcdefghijklmnopqrstuvwxyz" ∈ (["  abcdefghijklmnopqrstuvwxyz "].map pyStrip) :=
  select_section_match_spec.2 ["  abcdefghijklmnopqrstuvwxyz "]
    "abcdefghijklmnopqrstuvwxyz" (by rfl)

/-! ## Claim theorems: core agent and LinkedIn -/

/-- C8: username derivation is deterministic for an existing file — the result
does not depend on the wall clock, only on path, mtime and size — and
filesystem-safe: assuming the hex digest really produces hex characters, every
character of the derived username is a word character, hyphen or underscore
(`is_word_char` covers letters, digits and the underscore). -/
theorem extract_username_deterministic_and_safe
    (md5hex : String → String)
    (hmd5 : ∀ s : String, ∀ c ∈ (md5hex s).toList, c ∈ hex_chars)
    (now1 now2 resume_file : String) (mtime size : Nat) :
    extract_username_from_resume md5hex now1 resume_file (some (mtime, size)) =
      extract_username_from_resume md5hex now2 resume_file (some (mtime, size)) ∧
    ∀ c ∈ (extract_username_from_resume md5hex now1 resume_file
        (some (mtime, size))).toList,
      (is_word_char c || c == '-') = true := by
  refine ⟨rfl, ?_⟩
  have hhex : ∀ c ∈ hex_chars, (is_word_char c || c == '-') = true := by decide
  have hsan : ∀ c', (is_word_char (sanitize_char c') || sanitize_char c' == '-') = true := by
    intro c'
    by_cases h : (is_word_char c' || c' == '-') = true
    · simp only [sanitize_char]
      rw [if_pos h]
      exact h
    · simp only [sanitize_char]
      rw [if_neg h]
      decide
  intro c hc
  simp only [extract_username_from_resume] at hc
  by_cases hgen : (py_sub_nonword (pyLower (splitext_stem (pyBasename resume_file))) = "resume" ∨
      py_sub_nonword (pyLower (splitext_stem (pyBasename resume_file))) = "cv" ∨
      py_sub_nonword (pyLower (splitext_stem (pyBasename resume_file))) = "document" ∨
      (py_sub_nonword (pyLower (splitext_stem (pyBasename resume_file)))).length < 3)
  · rw [if_pos hgen] at hc
    rw [show ("user_" ++ pySlice (md5hex (resume_file ++ "_" ++ toString mtime ++ "_" ++
        toString size)) 8).toList =
      "user_".toList ++ (pySlice (md5hex (resume_file ++ "_" ++ toString mtime ++ "_" ++
        toString size)) 8).toList from rfl] at hc
    have huser : ∀ c ∈ ("user_" : String).toList, (is_word_char c || c == '-') = true := by
      decide
    rcases List.mem_append.mp hc with hu | hs
    · exact huser c hu
    · have : c ∈ (md5hex (resume_file ++ "_" ++ toString mtime ++ "_" ++
          toString size)).toList := by
        have := hs
        simp only [pySlice] at this
        exact List.mem_of_mem_take this
      exact hhex c (hmd5 _ c this)
  · rw [if_neg hgen] at hc
    simp only [py_sub_nonword] at hc
    rcases List.mem_map.mp hc with ⟨c', _, rfl⟩
    exact hsan c'

/-- Witness for C8 at a concrete path, digest, mtime and size, with two
different wall-clock values. -/
theorem extract_username_deterministic_and_safe_witness :
    extract_username_from_resume (fun _ => "0123abcd") "20240101_000000"
        "John Doe Resume.pdf" (some (5, 9)) =
      extract_username_from_resume (fun _ => "0123abcd") "20991231_235959"
        "John Doe Resume.pdf" (some (5, 9)) ∧
    ∀ c ∈ (extract_username_from_resume (fun _ => "0123abcd") "20240101_000000"
        "John Doe Resume.pdf" (some (5, 9))).toList,
      (is_word_char c || c == '-') = true :=
  extract_username_deterministic_and_safe (fun _ => "0123abcd")
    (fun _ => by
      show ∀ c ∈ ("0123abcd" : String).toList, c ∈ hex_chars
      decide)
    "20240101_000000" "20991231_235959" "John Doe Resume.pdf" 5 9

/-- C5: when the persisted store for the user already holds a nonzero item
count, creating the vector store again leaves the state unchanged (no
documents added); and after a first build from an empty store with a nonempty
document list, the store is nonempty, so a second invocation for the same
derived username leaves the persisted state unchanged. -/
theorem create_persistent_vectorstore_reuse
    (stores : String → List Document) (documents : List Document) (username : String) :
    ((stores ("./resume_" ++ username)).length ≠ 0 →
      (create_persistent_vectorstore stores documents username).1 = stores) ∧
    (documents ≠ [] → stores ("./resume_" ++ username) = [] →
      ((create_persistent_vectorstore stores documents username).1
          ("./resume_" ++ username)).length ≠ 0 ∧
      (create_persistent_vectorstore
          (create_persistent_vectorstore stores documents username).1
          documents username).1 =
        (create_persistent_vectorstore stores documents username).1) := by
  have reuse : ∀ st : String → List Document,
      (st ("./resume_" ++ username)).length ≠ 0 →
      (create_persistent_vectorstore st documents username).1 = st := by
    intro st h
    by_cases hd : documents.isEmpty <;> simp [create_persistent_vectorstore, hd, h]
  refine ⟨reuse stores, fun hd h0 => ?_⟩
  have hde : documents.isEmpty = false := by simpa using hd
  have hcount : (stores ("./resume_" ++ username)).length = 0 := by rw [h0]; rfl
  have hs1 : (create_persistent_vectorstore stores documents username).1
      ("./resume_" ++ username) =
      stores ("./resume_" ++ username) ++ filter_complex_metadata documents := by
    simp [create_persistent_vectorstore, hde, hcount]
  have hlen : ((create_persistent_vectorstore stores documents username).1
      ("./resume_" ++ username)).length ≠ 0 := by
    rw [hs1, h0]
    simpa [filter_complex_metadata, List.length_eq_zero] using hd
  exact ⟨hlen, reuse _ hlen⟩

/-- Witness for C5: build once from an empty store, then observe the second
invocation keeps the state. -/
theorem create_persistent_vectorstore_reuse_witness :
    ((create_persistent_vectorstore (fun _ => []) [{ page_content := "x" }] "alice").1
        ("./resume_" ++ "alice")).length ≠ 0 ∧
    (create_persistent_vectorstore
        (create_persistent_vectorstore (fun _ => []) [{ page_content := "x" }] "alice").1
        [{ page_content := "x" }] "alice").1 =
      (create_persistent_vectorstore (fun _ => []) [{ page_content := "x" }] "alice").1 :=
  (create_persistent_vectorstore_reuse (fun _ => []) [{ page_content := "x" }] "alice").2
    (by decide) rfl

/-- C6: for every LinkedIn URL that cannot be reached (BrightData unconfigured
or failing, direct fetch failing), `analyze_linkedin_profile` returns the
structured access-denied dict — with `error` set and without any
`linkedin_found = True` marker — and, as a total function of its environment,
propagates no exception (every raising path of the source is caught and turned
into an error dict). -/
theorem analyze_linkedin_access_denied (env : LinkedInEnv) (url : String) :
    url ≠ "" → linkedin_unreachable env url →
    analyze_linkedin_profile env (some url) none =
      { error := some "LinkedIn access denied"
        message := some "Cannot parse LinkedIn profile due to access restrictions"
        url := some url
        profile_data := none
        summary := some "LinkedIn profile analysis unavailable due to access restrictions." } ∧
    (analyze_linkedin_profile env (some url) none).linkedin_found ≠ some true ∧
    (analyze_linkedin_profile env (some url) none).error ≠ none := by
  intro hu hun
  obtain ⟨hb, hbasic⟩ := hun
  have hbright : (if truthy env.brightdata_token then
      (if (env.brightdata_result url).error = none then
        some (process_brightdata_result env.username_of (env.brightdata_result url))
      else none)
    else none) = (none : Option ScrapeResult) := by
    rcases hb with hb | hb
    · simp [hb]
    · by_cases ht : truthy env.brightdata_token <;> simp [ht, hb]
  have henh : scrape_linkedin_profile_enhanced env url =
      { error := some "LinkedIn access denied"
        message := some "Unable to parse LinkedIn profile due to access restrictions"
        url := some url
        status := some "access_denied" } := by
    simp only [scrape_linkedin_profile_enhanced]
    rw [hbright]
    simp [hbasic]
  have ht : truthy (some url) = true := by simp [truthy, hu]
  have hmain : analyze_linkedin_profile env (some url) none =
      { error := some "LinkedIn access denied"
        message := some "Cannot parse LinkedIn profile due to access restrictions"
        url := some url
        profile_data := none
        summary := some "LinkedIn profile analysis unavailable due to access restrictions." } := by
    simp only [analyze_linkedin_profile, ht, if_pos]
    simp [analyze_links, henh]
  refine ⟨hmain, ?_, ?_⟩ <;> rw [hmain] <;> simp

/-- Witness for C6 at `c6_env` (no token, direct fetch forbidden). -/
theorem analyze_linkedin_access_denied_witness :
    analyze_linkedin_profile c6_env (some "https://www.linkedin.com/in/someone") none =
      { error := some "LinkedIn access denied"
        message := some "Cannot parse LinkedIn profile due to access restrictions"
        url := some "https://www.linkedin.com/in/someone"
        profile_data := none
        summary := some "LinkedIn profile analysis unavailable due to access restrictions." } ∧
    (analyze_linkedin_profile c6_env
        (some "https://www.linkedin.com/in/someone") none).linkedin_found ≠ some true ∧
    (analyze_linkedin_profile c6_env
        (some "https://www.linkedin.com/in/someone") none).error ≠ none :=
  analyze_linkedin_access_denied c6_env "https://www.linkedin.com/in/someone"
    (by decide) ⟨Or.inl rfl, by decide⟩
